import Mathlib

/-!
Verification development for the IP SLA monitor repository.

The embedding models `src/parser.py` (`IPSLAParser`, `IPSLARecord`) and
`src/excel_handler.py` (`ExcelHandler.append_records`,
`ExcelHandler.get_existing_timestamps`) together with the column table of
`src/config.py`.

Strings are modelled as `List Char`.  The regular expressions of
`IPSLAParser.PATTERNS` are embedded as hand-written scanners: every pattern
in the source alternates literal text with the character classes
`\d`, `\w`, `\s`, `[\d.]` and each class is disjoint from the piece of
pattern that follows it, so Python's leftmost greedy search with
backtracking coincides with a greedy no-backtracking scan tried at every
start position (leftmost first).  The classes are modelled over their ASCII
portions.  Python `float` values arising from decimal literals are modelled
exactly as rationals; `int` values as `Int`.
-/

/-- Shorthand for the character-list representation of Python strings. -/
abbrev LC := List Char

/-- ASCII decimal digit, the model of the regex class `\d`. -/
def isDigitC (c : Char) : Bool := '0' ≤ c && c ≤ '9'

/-- ASCII word character, the model of the regex class `\w`. -/
def isWordC (c : Char) : Bool :=
  ('a' ≤ c && c ≤ 'z') || ('A' ≤ c && c ≤ 'Z') || isDigitC c || c = '_'

/-- ASCII whitespace, the model of the regex class `\s` and of the
character set stripped by Python `str.strip()`. -/
def isSpaceC (c : Char) : Bool :=
  c = ' ' || c = '\t' || c = '\n' || c = '\r' || c = '\x0b' || c = '\x0c'

/-- Match a literal piece of pattern text, returning the rest of the input. -/
def dropLit : LC → LC → Option LC
  | [], s => some s
  | _ :: _, [] => none
  | c :: cs, d :: ds => if c = d then dropLit cs ds else none

/-- Greedy one-or-more repetition of a character class (`p+`), returning the
captured characters and the rest of the input. -/
def takeWhile1 (p : Char → Bool) (s : LC) : Option (LC × LC) :=
  let t := s.takeWhile p
  if t.isEmpty then none else some (t, s.dropWhile p)

/-- The regex piece `\s+` (captureless). -/
def ws1 (s : LC) : Option LC := (takeWhile1 isSpaceC s).map (fun x => x.2)

/-- The regex piece `\s*` (captureless, never fails). -/
def ws0 (s : LC) : LC := s.dropWhile isSpaceC

/-- The regex piece `(\d+)`. -/
def digits1 : LC → Option (LC × LC) := takeWhile1 isDigitC

/-- The regex piece `(\w+)`. -/
def word1 : LC → Option (LC × LC) := takeWhile1 isWordC

/-- The regex piece `([\d.]+)`. -/
def digitdot1 : LC → Option (LC × LC) :=
  takeWhile1 (fun c => isDigitC c || c = '.')

/-- The regex piece `(\d{n})`: exactly `n` digits. -/
def digitsN (n : Nat) (s : LC) : Option (LC × LC) :=
  let t := s.take n
  if t.length = n ∧ t.all isDigitC then some (t, s.drop n) else none

/-- `re.search`: try a match at every start position, leftmost match wins. -/
def searchWith {α : Type} (m : LC → Option α) : LC → Option α
  | [] => m []
  | c :: rest =>
    match m (c :: rest) with
    | some x => some x
    | none => searchWith m rest

/-- The block marker literal `Start Time Index:`. -/
def marker : LC := "Start Time Index:".data

/-- Captured groups of the `start_time` pattern.  The single regex group
`(\d{2}:\d{2}:\d{2})` is represented by its three two-digit components
`hh`, `mm`, `ss`; the source's `time_str.split(':')` recovers exactly
these.  The timezone word `\w+` is not captured by the source pattern. -/
structure TsCaps where
  hh : LC
  mm : LC
  ss : LC
  dayName : LC
  monthStr : LC
  day : LC
  year : LC
deriving DecidableEq

/-- `Option` bind, written out (kept out of the inliner so that long scanner
chains compile quickly; semantically identical to `Option.bind`). -/
@[noinline] def obind {α β : Type} (o : Option α) (f : α → Option β) : Option β :=
  match o with
  | none => none
  | some a => f a

/-- `PATTERNS['start_time']`:
`Start Time Index:\s+(\d{2}:\d{2}:\d{2})\s+\w+\s+(\w+)\s+(\w+)\s+(\d+)\s+(\d{4})`
matched at the head of the input (the `\w+` after the clock is the
uncaptured timezone word). -/
def match_start_time (s : LC) : Option TsCaps :=
  obind (dropLit marker s) fun s =>
  obind (ws1 s) fun s =>
  obind (digitsN 2 s) fun (hh, s) =>
  obind (dropLit [':'] s) fun s =>
  obind (digitsN 2 s) fun (mi, s) =>
  obind (dropLit [':'] s) fun s =>
  obind (digitsN 2 s) fun (ss, s) =>
  obind (ws1 s) fun s =>
  obind (word1 s) fun (_tz, s) =>
  obind (ws1 s) fun s =>
  obind (word1 s) fun (dn, s) =>
  obind (ws1 s) fun s =>
  obind (word1 s) fun (mo, s) =>
  obind (ws1 s) fun s =>
  obind (digits1 s) fun (dd, s) =>
  obind (ws1 s) fun s =>
  obind (digitsN 4 s) fun (yy, _) =>
  some ⟨hh, mi, ss, dn, mo, dd, yy⟩

/-- `PATTERNS['voice_scores']`:
`MinOfICPIF:\s*([\d.]+)\s+MaxOfICPIF:\s*([\d.]+)\s+MinOfMOS:\s*([\d.]+)\s+MaxOfMOS:\s*([\d.]+)`
matched at the head of the input. -/
def match_voice_scores (s : LC) : Option (LC × LC × LC × LC) :=
  obind (dropLit "MinOfICPIF:".data s) fun s =>
  obind (digitdot1 (ws0 s)) fun (a, s) =>
  obind (ws1 s) fun s =>
  obind (dropLit "MaxOfICPIF:".data s) fun s =>
  obind (digitdot1 (ws0 s)) fun (b, s) =>
  obind (ws1 s) fun s =>
  obind (dropLit "MinOfMOS:".data s) fun s =>
  obind (digitdot1 (ws0 s)) fun (c, s) =>
  obind (ws1 s) fun s =>
  obind (dropLit "MaxOfMOS:".data s) fun s =>
  obind (digitdot1 (ws0 s)) fun (d, _) =>
  some (a, b, c, d)

/-- `PATTERNS['rtt_values']`:
`Number Of RTT:\s*(\d+)\s+RTT Min/Avg/Max:\s*(\d+)/(\d+)/(\d+)`
matched at the head of the input. -/
def match_rtt_values (s : LC) : Option (LC × LC × LC × LC) :=
  obind (dropLit "Number Of RTT:".data s) fun s =>
  obind (digits1 (ws0 s)) fun (n, s) =>
  obind (ws1 s) fun s =>
  obind (dropLit "RTT Min/Avg/Max:".data s) fun s =>
  obind (digits1 (ws0 s)) fun (a, s) =>
  obind (dropLit ['/'] s) fun s =>
  obind (digits1 s) fun (b, s) =>
  obind (dropLit ['/'] s) fun s =>
  obind (digits1 s) fun (c, _) =>
  some (n, a, b, c)

/-- `PATTERNS['oneway_samples']`: `Number of Latency one-way Samples:\s*(\d+)`
matched at the head of the input. -/
def match_oneway_samples (s : LC) : Option LC :=
  obind (dropLit "Number of Latency one-way Samples:".data s) fun s =>
  obind (digits1 (ws0 s)) fun (n, _) =>
  some n

/-- `PATTERNS['rtt_threshold']`: `Number Of RTT Over Threshold:\s*(\d+)\s*\((\d+)%\)`
matched at the head of the input. -/
def match_rtt_threshold (s : LC) : Option (LC × LC) :=
  obind (dropLit "Number Of RTT Over Threshold:".data s) fun s =>
  obind (digits1 (ws0 s)) fun (n, s) =>
  obind (dropLit ['('] (ws0 s)) fun s =>
  obind (digits1 s) fun (p, s) =>
  obind (dropLit ['%', ')'] s) fun _ =>
  some (n, p)

/-- `PATTERNS['jitter_sd']`:
`Source to Destination Jitter Min/Avg/Max:\s*(\d+)/(\d+)/(\d+)`
matched at the head of the input. -/
def match_jitter_sd (s : LC) : Option (LC × LC × LC) :=
  obind (dropLit "Source to Destination Jitter Min/Avg/Max:".data s) fun s =>
  obind (digits1 (ws0 s)) fun (a, s) =>
  obind (dropLit ['/'] s) fun s =>
  obind (digits1 s) fun (b, s) =>
  obind (dropLit ['/'] s) fun s =>
  obind (digits1 s) fun (c, _) =>
  some (a, b, c)

/-- `PATTERNS['jitter_ds']`:
`Destination to Source Jitter Min/Avg/Max:\s*(\d+)/(\d+)/(\d+)`
matched at the head of the input. -/
def match_jitter_ds (s : LC) : Option (LC × LC × LC) :=
  obind (dropLit "Destination to Source Jitter Min/Avg/Max:".data s) fun s =>
  obind (digits1 (ws0 s)) fun (a, s) =>
  obind (dropLit ['/'] s) fun s =>
  obind (digits1 s) fun (b, s) =>
  obind (dropLit ['/'] s) fun s =>
  obind (digits1 s) fun (c, _) =>
  some (a, b, c)

/-- `PATTERNS['loss_sd']`: `Loss Source to Destination:\s*(\d+)`
matched at the head of the input. -/
def match_loss_sd (s : LC) : Option LC :=
  obind (dropLit "Loss Source to Destination:".data s) fun s =>
  obind (digits1 (ws0 s)) fun (n, _) =>
  some n

/-- `PATTERNS['loss_ds']`: `Loss Destination to Source:\s*(\d+)`
matched at the head of the input. -/
def match_loss_ds (s : LC) : Option LC :=
  obind (dropLit "Loss Destination to Source:".data s) fun s =>
  obind (digits1 (ws0 s)) fun (n, _) =>
  some n

/-- `PATTERNS['out_of_seq_tail']`: `Out Of Sequence:\s*(\d+)\s+Tail Drop:\s*(\d+)`
matched at the head of the input. -/
def match_out_of_seq_tail (s : LC) : Option (LC × LC) :=
  obind (dropLit "Out Of Sequence:".data s) fun s =>
  obind (digits1 (ws0 s)) fun (a, s) =>
  obind (ws1 s) fun s =>
  obind (dropLit "Tail Drop:".data s) fun s =>
  obind (digits1 (ws0 s)) fun (b, _) =>
  some (a, b)

/-- `PATTERNS['late_arrival']`: `Packet Late Arrival:\s*(\d+)`
matched at the head of the input. -/
def match_late_arrival (s : LC) : Option LC :=
  obind (dropLit "Packet Late Arrival:".data s) fun s =>
  obind (digits1 (ws0 s)) fun (n, _) =>
  some n

/-- `PATTERNS['successes']`: `Number of successes:\s*(\d+)`
matched at the head of the input. -/
def match_successes (s : LC) : Option LC :=
  obind (dropLit "Number of successes:".data s) fun s =>
  obind (digits1 (ws0 s)) fun (n, _) =>
  some n

/-- `PATTERNS['failures']`: `Number of failures:\s*(\d+)`
matched at the head of the input. -/
def match_failures (s : LC) : Option LC :=
  obind (dropLit "Number of failures:".data s) fun s =>
  obind (digits1 (ws0 s)) fun (n, _) =>
  some n

/-- Leftmost `start_time` match over the block (`re.search`). -/
def search_start_time : LC → Option TsCaps := searchWith match_start_time

/-- Leftmost `voice_scores` match over the block. -/
def search_voice_scores : LC → Option (LC × LC × LC × LC) :=
  searchWith match_voice_scores

/-- Leftmost `rtt_values` match over the block. -/
def search_rtt_values : LC → Option (LC × LC × LC × LC) :=
  searchWith match_rtt_values

/-- Leftmost `oneway_samples` match over the block. -/
def search_oneway_samples : LC → Option LC := searchWith match_oneway_samples

/-- Leftmost `rtt_threshold` match over the block. -/
def search_rtt_threshold : LC → Option (LC × LC) := searchWith match_rtt_threshold

/-- Leftmost `jitter_sd` match over the block. -/
def search_jitter_sd : LC → Option (LC × LC × LC) := searchWith match_jitter_sd

/-- Leftmost `jitter_ds` match over the block. -/
def search_jitter_ds : LC → Option (LC × LC × LC) := searchWith match_jitter_ds

/-- Leftmost `loss_sd` match over the block. -/
def search_loss_sd : LC → Option LC := searchWith match_loss_sd

/-- Leftmost `loss_ds` match over the block. -/
def search_loss_ds : LC → Option LC := searchWith match_loss_ds

/-- Leftmost `out_of_seq_tail` match over the block. -/
def search_out_of_seq_tail : LC → Option (LC × LC) := searchWith match_out_of_seq_tail

/-- Leftmost `late_arrival` match over the block. -/
def search_late_arrival : LC → Option LC := searchWith match_late_arrival

/-- Leftmost `successes` match over the block. -/
def search_successes : LC → Option LC := searchWith match_successes

/-- Leftmost `failures` match over the block. -/
def search_failures : LC → Option LC := searchWith match_failures

/-- Numeric value of a digit string (most significant digit first). -/
def natOfDigits : LC → Nat :=
  List.foldl (fun acc c => acc * 10 + (c.toNat - 48)) 0

/-- Python `int(s)` restricted to sign-and-digits forms; any other shape
raises `ValueError`, modelled as `none`.  (Captures fed to it by the parser
come from `\d+`-style pieces and are always plain digit strings.) -/
def pyInt (s : LC) : Option Int :=
  if s.head? = some '-' then
    if s.tail ≠ [] ∧ s.tail.all isDigitC then some (-(natOfDigits s.tail : Int)) else none
  else if s.head? = some '+' then
    if s.tail ≠ [] ∧ s.tail.all isDigitC then some ((natOfDigits s.tail : Int)) else none
  else
    if s ≠ [] ∧ s.all isDigitC then some ((natOfDigits s : Int)) else none

/-- Python `float(s)` on strings drawn from the class `[\d.]+`: defined iff
the string has at most one dot and at least one digit; the value is the
exact decimal, modelled as a rational.  Invalid shapes (such as `1.2.3`)
raise `ValueError`, modelled as `none`. -/
def pyFloat (s : LC) : Option ℚ :=
  let ip := s.takeWhile (fun c => c ≠ '.')
  match s.dropWhile (fun c => c ≠ '.') with
  | [] => if ip ≠ [] ∧ ip.all isDigitC then some (mkRat (natOfDigits ip) 1) else none
  | _ :: fp =>
    if '.' ∈ fp then none
    else if ip.all isDigitC ∧ fp.all isDigitC ∧ (ip ≠ [] ∨ fp ≠ []) then
      some (mkRat (natOfDigits ip * 10 ^ fp.length + natOfDigits fp) (10 ^ fp.length))
    else none

/-- A Python `datetime.datetime` value (seconds precision, as constructed
by the parser). -/
structure Datetime where
  year : Int
  month : Int
  day : Int
  hour : Int
  minute : Int
  second : Int
deriving DecidableEq

/-- Gregorian leap-year rule used by `datetime`'s day-of-month validation. -/
def isLeap (y : Int) : Bool := y % 4 == 0 && (y % 100 != 0 || y % 400 == 0)

/-- Days in a month, as validated by `datetime.datetime`. -/
def daysInMonth (y m : Int) : Int :=
  if m = 2 then (if isLeap y then 29 else 28)
  else if m = 4 ∨ m = 6 ∨ m = 9 ∨ m = 11 then 30
  else 31

/-- The `datetime.datetime(year, month, day, hour, minute, second)`
constructor: range validation per the Python library (`ValueError` on an
out-of-range component, modelled as `none`). -/
def mkDatetime (y mo d h mi s : Int) : Option Datetime :=
  if 1 ≤ y ∧ y ≤ 9999 ∧ 1 ≤ mo ∧ mo ≤ 12 ∧ 1 ≤ d ∧ d ≤ daysInMonth y mo ∧
     0 ≤ h ∧ h ≤ 23 ∧ 0 ≤ mi ∧ mi ≤ 59 ∧ 0 ≤ s ∧ s ≤ 59 then
    some ⟨y, mo, d, h, mi, s⟩
  else none

/-- `IPSLAParser.MONTHS`: the month-abbreviation table. -/
def MONTHS : List (LC × Int) :=
  [("Jan".data, 1), ("Feb".data, 2), ("Mar".data, 3), ("Apr".data, 4),
   ("May".data, 5), ("Jun".data, 6), ("Jul".data, 7), ("Aug".data, 8),
   ("Sep".data, 9), ("Oct".data, 10), ("Nov".data, 11), ("Dec".data, 12)]

/-- `self.MONTHS.get(month_str, 1)`: table lookup with default `1`. -/
def monthsGet (k : LC) : Int :=
  match List.lookup k MONTHS with
  | some m => m
  | none => 1

/-- `IPSLARecord`: one measurement interval (fields in source order). -/
structure IPSLARecord where
  start_time : Datetime
  min_mos : ℚ
  max_mos : ℚ
  min_icpif : ℚ
  max_icpif : ℚ
  num_rtt : Int
  rtt_min_ms : Int
  rtt_avg_ms : Int
  rtt_max_ms : Int
  rtt_over_threshold_count : Int
  rtt_over_threshold_pct : Int
  num_oneway_samples : Int
  jitter_sd_avg_ms : Int
  jitter_sd_max_ms : Int
  jitter_ds_avg_ms : Int
  jitter_ds_max_ms : Int
  loss_sd : Int
  loss_ds : Int
  packet_late_arrival : Int
  out_of_seq : Int
  tail_drop : Int
  successes : Int
  failures : Int
deriving DecidableEq

/-- The tuple of the thirteen `re.search` results `_parse_block` computes
over one block (field names follow the keys of `IPSLAParser.PATTERNS`). -/
structure BlockSig where
  start_time : Option TsCaps
  voice_scores : Option (LC × LC × LC × LC)
  rtt_values : Option (LC × LC × LC × LC)
  oneway_samples : Option LC
  rtt_threshold : Option (LC × LC)
  jitter_sd : Option (LC × LC × LC)
  jitter_ds : Option (LC × LC × LC)
  loss_sd : Option LC
  loss_ds : Option LC
  out_of_seq_tail : Option (LC × LC)
  late_arrival : Option LC
  successes : Option LC
  failures : Option LC
deriving DecidableEq

/-- All thirteen pattern searches over one block. -/
def blockSig (b : LC) : BlockSig :=
  ⟨search_start_time b, search_voice_scores b, search_rtt_values b,
   search_oneway_samples b, search_rtt_threshold b, search_jitter_sd b,
   search_jitter_ds b, search_loss_sd b, search_loss_ds b,
   search_out_of_seq_tail b, search_late_arrival b, search_successes b,
   search_failures b⟩

/-- The `voice_scores` branch of `_parse_block`: on a match,
`min_icpif, max_icpif, min_mos, max_mos = map(float, match.groups())`
(a float failure raises, modelled as `none`); with no match all four
default to `0.0`. -/
def voiceVals : Option (LC × LC × LC × LC) → Option (ℚ × ℚ × ℚ × ℚ)
  | none => some (0, 0, 0, 0)
  | some (a, b, c, d) =>
    obind (pyFloat a) fun x =>
    obind (pyFloat b) fun y =>
    obind (pyFloat c) fun z =>
    obind (pyFloat d) fun w =>
    some (x, y, z, w)

/-- A four-integer branch of `_parse_block` (`rtt_values`):
`map(int, match.groups())` on a match, all zero otherwise. -/
def intQuad : Option (LC × LC × LC × LC) → Option (Int × Int × Int × Int)
  | none => some (0, 0, 0, 0)
  | some (a, b, c, d) =>
    obind (pyInt a) fun x =>
    obind (pyInt b) fun y =>
    obind (pyInt c) fun z =>
    obind (pyInt d) fun w =>
    some (x, y, z, w)

/-- A two-integer branch of `_parse_block` (`rtt_threshold`,
`out_of_seq_tail`). -/
def intPair : Option (LC × LC) → Option (Int × Int)
  | none => some (0, 0)
  | some (a, b) =>
    obind (pyInt a) fun x =>
    obind (pyInt b) fun y =>
    some (x, y)

/-- A one-integer branch of `_parse_block`
(`int(match.group(1)) if match else 0`). -/
def intSingle : Option LC → Option Int
  | none => some 0
  | some a => pyInt a

/-- A jitter branch of `_parse_block`:
`_, avg, max = map(int, match.groups())` — the min capture is discarded. -/
def jitterVals : Option (LC × LC × LC) → Option (Int × Int)
  | none => some (0, 0)
  | some (_, b, c) =>
    obind (pyInt b) fun x =>
    obind (pyInt c) fun y =>
    some (x, y)

/-- The body of `IPSLAParser._parse_block` after the thirteen searches:
combine the search results into a record.  Any Python exception on the way
(timestamp pattern absent, `datetime` range error, numeric-coercion error)
makes the source's `except` branch return `None`, modelled as `none`. -/
def parseSig (g : BlockSig) : Option IPSLARecord :=
  obind g.start_time fun caps =>
  obind (pyInt caps.hh) fun hour =>
  obind (pyInt caps.mm) fun minute =>
  obind (pyInt caps.ss) fun second =>
  obind (pyInt caps.day) fun day =>
  obind (pyInt caps.year) fun year =>
  obind (mkDatetime year (monthsGet caps.monthStr) day hour minute second) fun st =>
  obind (voiceVals g.voice_scores) fun (mici, maci, mimos, mamos) =>
  obind (intQuad g.rtt_values) fun (nrtt, rmin, ravg, rmax) =>
  obind (intSingle g.oneway_samples) fun nonew =>
  obind (intPair g.rtt_threshold) fun (thrc, thrp) =>
  obind (jitterVals g.jitter_sd) fun (jsda, jsdm) =>
  obind (jitterVals g.jitter_ds) fun (jdsa, jdsm) =>
  obind (intSingle g.loss_sd) fun lsd =>
  obind (intSingle g.loss_ds) fun lds =>
  obind (intPair g.out_of_seq_tail) fun (oos, tdrop) =>
  obind (intSingle g.late_arrival) fun late =>
  obind (intSingle g.successes) fun succ =>
  obind (intSingle g.failures) fun fl =>
  some { start_time := st, min_mos := mimos, max_mos := mamos,
         min_icpif := mici, max_icpif := maci,
         num_rtt := nrtt, rtt_min_ms := rmin, rtt_avg_ms := ravg,
         rtt_max_ms := rmax, rtt_over_threshold_count := thrc,
         rtt_over_threshold_pct := thrp, num_oneway_samples := nonew,
         jitter_sd_avg_ms := jsda, jitter_sd_max_ms := jsdm,
         jitter_ds_avg_ms := jdsa, jitter_ds_max_ms := jdsm,
         loss_sd := lsd, loss_ds := lds, packet_late_arrival := late,
         out_of_seq := oos, tail_drop := tdrop, successes := succ,
         failures := fl }

/-- `IPSLAParser._parse_block`: the thirteen searches followed by the
combination above. -/
def parse_block (b : LC) : Option IPSLARecord := parseSig (blockSig b)

/-- `'Start Time Index:' in block`: substring test. -/
def containsMarker : LC → Bool
  | [] => false
  | c :: rest => marker.isPrefixOf (c :: rest) || containsMarker rest

/-- `not block.strip()`: true iff the block is all whitespace. -/
def stripEmpty (b : LC) : Bool := b.all isSpaceC

/-- Worker for `re.split(r'(?=Start Time Index:)', content)`: cut before
every position at which the marker matches (the accumulator holds the
current chunk reversed).  Python's split would also cut at position 0 and
emit a leading empty chunk; this worker never emits that empty chunk, and
the `parse_content` loop discards empty chunks anyway. -/
def splitAux : LC → LC → List LC
  | acc, [] => [acc.reverse]
  | acc, c :: rest =>
    if marker.isPrefixOf (c :: rest) ∧ acc ≠ [] then
      acc.reverse :: splitAux [c] rest
    else
      splitAux (c :: acc) rest

/-- `re.split(r'(?=Start Time Index:)', content)`: lookahead split — the
marker stays at the start of the following chunk. -/
def splitBlocks (s : LC) : List LC := splitAux [] s

/-- The per-block step of the `parse_content` loop: skip a chunk that is
all whitespace or lacks the marker, otherwise parse it; a `None` from
`_parse_block` contributes nothing. -/
def keepParse (block : LC) : Option IPSLARecord :=
  if stripEmpty block || !(containsMarker block) then none
  else parse_block block

/-- `IPSLAParser.parse_content`: split into chunks, parse each surviving
chunk, collect the records in document order.  Total by construction — the
source raises no exception for any input text. -/
def parse_content (content : LC) : List IPSLARecord :=
  (splitBlocks content).filterMap keepParse

/-- A spreadsheet cell value as written by the store: a timestamp, a float
(exact decimal, modelled as a rational) or an integer. -/
inductive Cell where
  | time : Datetime → Cell
  | rat : ℚ → Cell
  | int : Int → Cell
deriving DecidableEq

/-- `IPSLARecord.to_row`: the fixed-order row representation of a record
(source order of the list literal in `to_row`). -/
def to_row (r : IPSLARecord) : List Cell :=
  [Cell.time r.start_time,
   Cell.rat r.min_mos,
   Cell.rat r.max_mos,
   Cell.rat r.min_icpif,
   Cell.rat r.max_icpif,
   Cell.int r.num_rtt,
   Cell.int r.rtt_min_ms,
   Cell.int r.rtt_avg_ms,
   Cell.int r.rtt_max_ms,
   Cell.int r.rtt_over_threshold_count,
   Cell.int r.rtt_over_threshold_pct,
   Cell.int r.num_oneway_samples,
   Cell.int r.jitter_sd_avg_ms,
   Cell.int r.jitter_sd_max_ms,
   Cell.int r.jitter_ds_avg_ms,
   Cell.int r.jitter_ds_max_ms,
   Cell.int r.loss_sd,
   Cell.int r.loss_ds,
   Cell.int r.packet_late_arrival,
   Cell.int r.out_of_seq,
   Cell.int r.tail_drop,
   Cell.int r.successes,
   Cell.int r.failures]

/-- `COLUMNS` from `src/config.py`: the canonical 23-name column list. -/
def COLUMNS : List String :=
  ["StartTime",
   "MinMOS",
   "MaxMOS",
   "MinICPIF",
   "MaxICPIF",
   "NumRTT",
   "RTT_Min_ms",
   "RTT_Avg_ms",
   "RTT_Max_ms",
   "RTT_Over_Threshold_Count",
   "RTT_Over_Threshold_Pct",
   "Num_OneWay_Samples",
   "Jitter_SD_Avg_ms",
   "Jitter_SD_Max_ms",
   "Jitter_DS_Avg_ms",
   "Jitter_DS_Max_ms",
   "Loss_SD",
   "Loss_DS",
   "Packet_Late_Arrival",
   "OutOfSeq",
   "TailDrop",
   "Successes",
   "Failures"]

/-- `ExcelHandler.get_existing_timestamps`: the `start_time` values found in
the first column of the stored data rows (rows written by `append_records`
always carry a timestamp in column 1). -/
def get_existing_timestamps (rows : List (List Cell)) : List Datetime :=
  rows.filterMap fun row =>
    match row.head? with
    | some (Cell.time t) => some t
    | _ => none

/-- The loop of `ExcelHandler.append_records` over the batch: a record whose
`start_time` is in `existing` is skipped; otherwise its row is written, its
key added to `existing`, and the added counter bumped.  Returns
`(added, skipped, rows written)`. -/
def appendLoop : List Datetime → List IPSLARecord → Nat × Nat × List (List Cell)
  | _, [] => (0, 0, [])
  | existing, r :: rs =>
    if r.start_time ∈ existing then
      let out := appendLoop existing rs
      (out.1, out.2.1 + 1, out.2.2)
    else
      let out := appendLoop (r.start_time :: existing) rs
      (out.1 + 1, out.2.1, to_row r :: out.2.2)

/-- `ExcelHandler.append_records`: read the existing keys, run the batch
loop, return `(added_count, skipped_count)` together with the updated data
rows (new rows go after the existing ones). -/
def append_records (rows : List (List Cell)) (records : List IPSLARecord) :
    Nat × Nat × List (List Cell) :=
  let out := appendLoop (get_existing_timestamps rows) records
  (out.1, out.2.1, rows ++ out.2.2)

/-- The concrete block of the spec's first scenario: timestamp line, voice
line and RTT line, no jitter/loss/threshold/oneway/success/failure lines. -/
def c1Content : LC :=
  ("Start Time Index: 09:28:16 EST Wed Jan 28 2026\nMinOfICPIF: 1 MaxOfICPIF: 77 MinOfMOS: 1.51 MaxOfMOS: 4.34\nNumber Of RTT: 59109 RTT Min/Avg/Max: 8/120/2332\n").data

/-- The record the spec's first scenario expects. -/
def c1Record : IPSLARecord :=
  { start_time := ⟨2026, 1, 28, 9, 28, 16⟩,
    min_mos := mkRat 151 100, max_mos := mkRat 434 100,
    min_icpif := 1, max_icpif := 77,
    num_rtt := 59109, rtt_min_ms := 8, rtt_avg_ms := 120, rtt_max_ms := 2332,
    rtt_over_threshold_count := 0, rtt_over_threshold_pct := 0,
    num_oneway_samples := 0, jitter_sd_avg_ms := 0, jitter_sd_max_ms := 0,
    jitter_ds_avg_ms := 0, jitter_ds_max_ms := 0, loss_sd := 0, loss_ds := 0,
    packet_late_arrival := 0, out_of_seq := 0, tail_drop := 0,
    successes := 0, failures := 0 }

/-- C1: on the concrete block with the given timestamp, voice-score and RTT
lines and no jitter/loss/threshold/oneway/success/failure lines,
`parse_content` yields exactly one record with `start_time`
2026-01-28 09:28:16, `min_icpif = 1.0`, `max_icpif = 77.0`,
`min_mos = 1.51`, `max_mos = 4.34`, `num_rtt = 59109`,
`rtt_min_ms = 8`, `rtt_avg_ms = 120`, `rtt_max_ms = 2332`, and every other
numeric field equal to zero. -/
theorem c1_concrete_block_extraction : parse_content c1Content = [c1Record] := by
  decide

/-- Modelled from the spec: the correspondence between the canonical column
names of §3/§8 (the `COLUMNS` table) and the record fields, used to state
that `to_row`'s order matches the column list field-for-field. -/
def specColumnField (r : IPSLARecord) : String → Option Cell
  | "StartTime" => some (Cell.time r.start_time)
  | "MinMOS" => some (Cell.rat r.min_mos)
  | "MaxMOS" => some (Cell.rat r.max_mos)
  | "MinICPIF" => some (Cell.rat r.min_icpif)
  | "MaxICPIF" => some (Cell.rat r.max_icpif)
  | "NumRTT" => some (Cell.int r.num_rtt)
  | "RTT_Min_ms" => some (Cell.int r.rtt_min_ms)
  | "RTT_Avg_ms" => some (Cell.int r.rtt_avg_ms)
  | "RTT_Max_ms" => some (Cell.int r.rtt_max_ms)
  | "RTT_Over_Threshold_Count" => some (Cell.int r.rtt_over_threshold_count)
  | "RTT_Over_Threshold_Pct" => some (Cell.int r.rtt_over_threshold_pct)
  | "Num_OneWay_Samples" => some (Cell.int r.num_oneway_samples)
  | "Jitter_SD_Avg_ms" => some (Cell.int r.jitter_sd_avg_ms)
  | "Jitter_SD_Max_ms" => some (Cell.int r.jitter_sd_max_ms)
  | "Jitter_DS_Avg_ms" => some (Cell.int r.jitter_ds_avg_ms)
  | "Jitter_DS_Max_ms" => some (Cell.int r.jitter_ds_max_ms)
  | "Loss_SD" => some (Cell.int r.loss_sd)
  | "Loss_DS" => some (Cell.int r.loss_ds)
  | "Packet_Late_Arrival" => some (Cell.int r.packet_late_arrival)
  | "OutOfSeq" => some (Cell.int r.out_of_seq)
  | "TailDrop" => some (Cell.int r.tail_drop)
  | "Successes" => some (Cell.int r.successes)
  | "Failures" => some (Cell.int r.failures)
  | _ => none

/-- C6: `to_row` returns exactly 23 values whose order matches the canonical
23-name column list field-for-field, with `start_time` first; a record
written to the store as that row and read back yields the same values
field-for-field (the stored row is the row verbatim). -/
theorem c6_to_row_matches_columns (r : IPSLARecord) :
    (to_row r).length = 23 ∧ COLUMNS.length = 23 ∧
    COLUMNS.map (specColumnField r) = (to_row r).map some ∧
    (to_row r).head? = some (Cell.time r.start_time) ∧
    (append_records [] [r]).2.2 = [to_row r] := by
  refine ⟨rfl, rfl, rfl, rfl, rfl⟩

/-- The chunks produced by the lookahead split concatenate back to the
input: no text is lost or reordered by segmentation. -/
theorem splitAux_join (s : LC) : ∀ acc : LC, (splitAux acc s).flatten = acc.reverse ++ s := by
  induction s with
  | nil => intro acc; simp [splitAux]
  | cons c rest ih =>
    intro acc
    by_cases h : marker.isPrefixOf (c :: rest) ∧ acc ≠ []
    · simp only [splitAux, if_pos h, List.flatten]
      rw [ih [c]]
      simp
    · simp only [splitAux, if_neg h]
      rw [ih (c :: acc)]
      simp

/-- If the marker occurs nowhere in the input, the split never cuts. -/
theorem splitAux_noMarker (s : LC) : containsMarker s = false →
    ∀ acc : LC, splitAux acc s = [acc.reverse ++ s] := by
  induction s with
  | nil => intro _ acc; simp [splitAux]
  | cons c rest ih =>
    intro h acc
    have hm : marker.isPrefixOf (c :: rest) = false := by
      cases hp : marker.isPrefixOf (c :: rest) with
      | false => rfl
      | true => rw [containsMarker, hp] at h; simp at h
    have hr : containsMarker rest = false := by
      rw [containsMarker, hm] at h; simpa using h
    have : ¬ (marker.isPrefixOf (c :: rest) ∧ acc ≠ []) := by
      intro hc; rw [hm] at hc; simp at hc
    rw [splitAux, if_neg this, ih hr (c :: acc)]
    simp

/-- C4: `parse_content` is total (it is a Lean function raising nothing);
the lookahead split loses no text (the chunks concatenate back to the
input, the marker staying at the start of the chunk it opens), a chunk
without the marker — in particular any leading content before the first
marker — is discarded without error, and an input with zero marker
occurrences (the empty string included) yields the empty record list. -/
theorem c4_parse_content_total (s : LC) :
    (splitBlocks s).flatten = s ∧
    (containsMarker s = false → parse_content s = []) ∧
    parse_content [] = [] := by
  refine ⟨by simpa using splitAux_join s [], fun h => ?_, rfl⟩
  rw [parse_content, splitBlocks, splitAux_noMarker s h []]
  simp [keepParse, h]

/-- Witness for C4 at a concrete input: a marker-free text yields no
records. -/
theorem c4_parse_content_total_witness :
    containsMarker ("router uptime is 3 weeks\nno data here\n").data = false ∧
    parse_content ("router uptime is 3 weeks\nno data here\n").data = [] :=
  ⟨by decide, (c4_parse_content_total ("router uptime is 3 weeks\nno data here\n").data).2.1 (by decide)⟩

/-- `filterMap` over a list is the concatenation of the per-element
results in list order. -/
theorem filterMap_eq_flatMap_toList {α β : Type} (f : α → Option β) (l : List α) :
    l.filterMap f = l.flatMap (fun a => (f a).toList) := by
  induction l with
  | nil => rfl
  | cons a l ih => cases h : f a <;> simp [List.filterMap_cons, h, ih]

/-- `parse_content` decomposed: the output is the concatenation, in chunk
order, of each chunk's records. -/
theorem parse_content_flatMap (s : LC) :
    parse_content s = (splitBlocks s).flatMap (fun b => (keepParse b).toList) :=
  filterMap_eq_flatMap_toList keepParse (splitBlocks s)

/-- The batch loop treats a record whose key was already stored, or already
seen earlier in the same batch, as a pure no-op apart from the skip
counter: removing it changes nothing else. -/
theorem appendLoop_dup_skip (post : List IPSLARecord) (r2 : IPSLARecord)
    (pre : List IPSLARecord) :
    ∀ ex : List Datetime,
      (r2.start_time ∈ ex ∨ ∃ r1 ∈ pre, r1.start_time = r2.start_time) →
      appendLoop ex (pre ++ r2 :: post) =
        ((appendLoop ex (pre ++ post)).1,
         (appendLoop ex (pre ++ post)).2.1 + 1,
         (appendLoop ex (pre ++ post)).2.2) := by
  induction pre with
  | nil =>
    intro ex h
    have hmem : r2.start_time ∈ ex := by
      rcases h with h | ⟨r1, hr1, _⟩
      · exact h
      · cases hr1
    simp only [List.nil_append]
    rw [appendLoop, if_pos hmem]
  | cons p pre ih =>
    intro ex h
    have e1 : (p :: pre) ++ r2 :: post = p :: (pre ++ r2 :: post) := rfl
    have e2 : (p :: pre) ++ post = p :: (pre ++ post) := rfl
    rw [e1, e2, appendLoop, appendLoop]
    by_cases hp : p.start_time ∈ ex
    · have hnext : r2.start_time ∈ ex ∨ ∃ r1 ∈ pre, r1.start_time = r2.start_time := by
        rcases h with h | ⟨r1, hr1, he⟩
        · exact Or.inl h
        · rcases List.mem_cons.1 hr1 with hr1 | hr1
          · exact Or.inl (by rw [← he, hr1]; exact hp)
          · exact Or.inr ⟨r1, hr1, he⟩
      rw [if_pos hp, if_pos hp, ih ex hnext]
    · have hnext : r2.start_time ∈ p.start_time :: ex ∨
          ∃ r1 ∈ pre, r1.start_time = r2.start_time := by
        rcases h with h | ⟨r1, hr1, he⟩
        · exact Or.inl (List.mem_cons_of_mem _ h)
        · rcases List.mem_cons.1 hr1 with hr1 | hr1
          · exact Or.inl (by rw [← he, hr1]; exact List.mem_cons_self _ _)
          · exact Or.inr ⟨r1, hr1, he⟩
      rw [if_neg hp, if_neg hp, ih (p.start_time :: ex) hnext]

/-- C7: extraction is order-preserving and does not deduplicate.  For every
input, the chunks concatenate back to the input in document order and the
output is the concatenation, in that same order, of each chunk's records —
regardless of timestamp values, so two blocks with equal timestamps both
contribute.  Dedup is exclusively the store's: on ingest a record whose key
is already stored or already appeared earlier in the batch is a pure
no-op (skip counted, nothing written), so the store keeps only the
first-appended record per key. -/
theorem c7_order_preserving_no_dedup (s : LC) :
    parse_content s = (splitBlocks s).flatMap (fun b => (keepParse b).toList) ∧
    (splitBlocks s).flatten = s ∧
    (∀ (rows : List (List Cell)) (pre post : List IPSLARecord) (r2 : IPSLARecord),
      (r2.start_time ∈ get_existing_timestamps rows ∨
        ∃ r1 ∈ pre, r1.start_time = r2.start_time) →
      append_records rows (pre ++ r2 :: post) =
        ((append_records rows (pre ++ post)).1,
         (append_records rows (pre ++ post)).2.1 + 1,
         (append_records rows (pre ++ post)).2.2)) := by
  refine ⟨parse_content_flatMap s, by simpa using splitAux_join s [], ?_⟩
  intro rows pre post r2 h
  simp only [append_records,
    appendLoop_dup_skip post r2 pre (get_existing_timestamps rows) h]

/-- First block of the C7 witness scenario. -/
def c7Block1 : LC :=
  ("Start Time Index: 09:28:16 EST Wed Jan 28 2026\nNumber of successes: 60\n").data

/-- Second block of the C7 witness scenario: identical timestamp line,
different successes count. -/
def c7Block2 : LC :=
  ("Start Time Index: 09:28:16 EST Wed Jan 28 2026\nNumber of successes: 61\n").data

/-- Record extracted from the first C7 witness block. -/
def c7Rec1 : IPSLARecord :=
  { start_time := ⟨2026, 1, 28, 9, 28, 16⟩,
    min_mos := 0, max_mos := 0, min_icpif := 0, max_icpif := 0,
    num_rtt := 0, rtt_min_ms := 0, rtt_avg_ms := 0, rtt_max_ms := 0,
    rtt_over_threshold_count := 0, rtt_over_threshold_pct := 0,
    num_oneway_samples := 0, jitter_sd_avg_ms := 0, jitter_sd_max_ms := 0,
    jitter_ds_avg_ms := 0, jitter_ds_max_ms := 0, loss_sd := 0, loss_ds := 0,
    packet_late_arrival := 0, out_of_seq := 0, tail_drop := 0,
    successes := 60, failures := 0 }

/-- Record extracted from the second C7 witness block. -/
def c7Rec2 : IPSLARecord :=
  { c7Rec1 with successes := 61 }

/-- Witness for C7: two blocks with identical `Start Time Index` lines but
different successes counts yield two distinct records in document order,
and on ingest the store keeps only the first-appended of the two. -/
theorem c7_order_preserving_no_dedup_witness :
    parse_content (c7Block1 ++ c7Block2) = [c7Rec1, c7Rec2] ∧
    c7Rec1.start_time = c7Rec2.start_time ∧ c7Rec1 ≠ c7Rec2 ∧
    (append_records [] ([c7Rec1] ++ c7Rec2 :: [])).2.2 = [to_row c7Rec1] := by
  refine ⟨?_, by decide, by decide, ?_⟩
  · rw [(c7_order_preserving_no_dedup (c7Block1 ++ c7Block2)).1]
    decide
  · rw [(c7_order_preserving_no_dedup (c7Block1 ++ c7Block2)).2.2 [] [c7Rec1] []
      c7Rec2 (Or.inr ⟨c7Rec1, List.mem_cons_self _ _, by decide⟩)]
    decide

/-- C5: per-block failure isolation.  A block in which the timestamp
pattern has no match yields no record, and wherever a failing block sits in
the input — including one whose processing raises (modelled as
`parse_block` returning `none`, for example on a malformed numeric literal
in a matched group) — only that block is skipped: every chunk before it and
every chunk after it still contributes its records to the output. -/
theorem c5_block_failure_isolation :
    (∀ b : LC, search_start_time b = none → parse_block b = none) ∧
    (∀ (s bf : LC) (pre post : List LC),
      splitBlocks s = pre ++ bf :: post → parse_block bf = none →
      parse_content s =
        (pre.flatMap fun b => (keepParse b).toList) ++
        (post.flatMap fun b => (keepParse b).toList)) := by
  constructor
  · intro b h
    simp [parse_block, parseSig, blockSig, h, obind]
  · intro s bf pre post hsplit hfail
    have hk : keepParse bf = none := by
      unfold keepParse
      split
      · rfl
      · exact hfail
    rw [parse_content_flatMap, hsplit]
    simp [hk]

/-- A C5 witness block with no timestamp line at all. -/
def c5NoTs : LC := ("Number of successes: 60\n").data

/-- A C5 witness block whose timestamp parses but whose matched voice-score
group holds the malformed numeric literal `1.2.3` (Python `float` raises
`ValueError` there, so `_parse_block` hits its `except` branch). -/
def c5BadBlock : LC :=
  ("Start Time Index: 11:00:00 EST Thu Jan 29 2026\nMinOfICPIF: 1.2.3 MaxOfICPIF: 1 MinOfMOS: 1 MaxOfMOS: 1\n").data

/-- A C5 witness block that parses cleanly, placed before the failing one. -/
def c5GoodBlock : LC :=
  ("Start Time Index: 10:00:00 EST Thu Jan 29 2026\nNumber of failures: 1\n").data

/-- A second clean C5 witness block, placed after the failing one. -/
def c5GoodBlock2 : LC :=
  ("Start Time Index: 12:00:00 EST Thu Jan 29 2026\nNumber of successes: 5\n").data

/-- The record extracted from the first clean C5 witness block. -/
def c5GoodRec : IPSLARecord :=
  { start_time := ⟨2026, 1, 29, 10, 0, 0⟩,
    min_mos := 0, max_mos := 0, min_icpif := 0, max_icpif := 0,
    num_rtt := 0, rtt_min_ms := 0, rtt_avg_ms := 0, rtt_max_ms := 0,
    rtt_over_threshold_count := 0, rtt_over_threshold_pct := 0,
    num_oneway_samples := 0, jitter_sd_avg_ms := 0, jitter_sd_max_ms := 0,
    jitter_ds_avg_ms := 0, jitter_ds_max_ms := 0, loss_sd := 0, loss_ds := 0,
    packet_late_arrival := 0, out_of_seq := 0, tail_drop := 0,
    successes := 0, failures := 1 }

/-- The record extracted from the second clean C5 witness block. -/
def c5GoodRec2 : IPSLARecord :=
  { c5GoodRec with start_time := ⟨2026, 1, 29, 12, 0, 0⟩, successes := 5, failures := 0 }

/-- Witness for C5: a timestampless block yields no record; a block whose
voice-score group matched the malformed literal `1.2.3` (timestamp present)
yields no record; and in a three-block input whose middle block fails, the
blocks before and after it are both still extracted. -/
theorem c5_block_failure_isolation_witness :
    parse_block c5NoTs = none ∧
    (search_start_time c5BadBlock ≠ none ∧ parse_block c5BadBlock = none) ∧
    parse_content (c5GoodBlock ++ c5BadBlock ++ c5GoodBlock2) =
      [c5GoodRec, c5GoodRec2] := by
  refine ⟨c5_block_failure_isolation.1 c5NoTs (by decide), ⟨by decide, by decide⟩, ?_⟩
  rw [c5_block_failure_isolation.2 (c5GoodBlock ++ c5BadBlock ++ c5GoodBlock2)
    c5BadBlock [c5GoodBlock] [c5GoodBlock2] (by decide) (by decide)]
  decide

/-- Reading back the first column of rows written by the batch loop: the
row of a record starts with its `start_time` cell. -/
theorem keys_cons_to_row (r : IPSLARecord) (rows : List (List Cell)) :
    get_existing_timestamps (to_row r :: rows) =
      r.start_time :: get_existing_timestamps rows := by
  simp [get_existing_timestamps, to_row]

/-- Every record of the batch ends up with its key either in the initial
key set or among the keys of the rows the loop wrote. -/
theorem appendLoop_covers (rs : List IPSLARecord) :
    ∀ ex : List Datetime, ∀ r ∈ rs,
      r.start_time ∈ ex ∨ r.start_time ∈ get_existing_timestamps (appendLoop ex rs).2.2 := by
  induction rs with
  | nil => intro ex r hr; cases hr
  | cons r' rs ih =>
    intro ex r hr
    rw [appendLoop]
    by_cases hm : r'.start_time ∈ ex
    · rw [if_pos hm]
      rcases List.mem_cons.1 hr with hr | hr
      · exact Or.inl (by rw [hr]; exact hm)
      · exact ih ex r hr
    · rw [if_neg hm]
      simp only [keys_cons_to_row]
      rcases List.mem_cons.1 hr with hr | hr
      · exact Or.inr (by rw [hr]; exact List.mem_cons_self _ _)
      · rcases ih (r'.start_time :: ex) r hr with h | h
        · rcases List.mem_cons.1 h with h | h
          · exact Or.inr (by rw [h]; exact List.mem_cons_self _ _)
          · exact Or.inl h
        · exact Or.inr (List.mem_cons_of_mem _ h)

/-- A batch whose keys are all already present is skipped wholesale: no
record added, every record counted as skipped, no row written. -/
theorem appendLoop_all_skipped (rs : List IPSLARecord) :
    ∀ ex : List Datetime, (∀ r ∈ rs, r.start_time ∈ ex) →
      appendLoop ex rs = (0, rs.length, []) := by
  induction rs with
  | nil => intro ex _; rfl
  | cons r rs ih =>
    intro ex h
    rw [appendLoop, if_pos (h r (List.mem_cons_self _ _)), ih ex
      (fun r' hr' => h r' (List.mem_cons_of_mem _ hr'))]
    simp

/-- The loop writes exactly one row per added record. -/
theorem appendLoop_rows_length (rs : List IPSLARecord) :
    ∀ ex : List Datetime, (appendLoop ex rs).2.2.length = (appendLoop ex rs).1 := by
  induction rs with
  | nil => intro ex; rfl
  | cons r rs ih =>
    intro ex
    rw [appendLoop]
    by_cases hm : r.start_time ∈ ex
    · rw [if_pos hm]; exact ih ex
    · rw [if_neg hm]; simp [ih (r.start_time :: ex)]

/-- Inserting then erasing an element counts it exactly once. -/
theorem card_insert_eq_card_erase (A : Finset Datetime) (a : Datetime) :
    (insert a A).card = (A.erase a).card + 1 := by
  by_cases h : a ∈ A
  · rw [Finset.insert_eq_self.2 h, Finset.card_erase_add_one h]
  · rw [Finset.card_insert_of_not_mem h, Finset.erase_eq_of_not_mem h]

/-- The loop's added count is the number of distinct batch keys not already
present. -/
theorem appendLoop_added_card (rs : List IPSLARecord) :
    ∀ ex : List Datetime,
      (appendLoop ex rs).1 =
        ((rs.map (fun r => r.start_time)).toFinset \ ex.toFinset).card := by
  induction rs with
  | nil => intro ex; simp [appendLoop]
  | cons r rs ih =>
    intro ex
    rw [appendLoop]
    by_cases hm : r.start_time ∈ ex
    · rw [if_pos hm]
      simp only [List.map_cons, List.toFinset_cons]
      rw [Finset.insert_sdiff_of_mem _ (List.mem_toFinset.2 hm)]
      exact ih ex
    · rw [if_neg hm]
      simp only [List.map_cons, List.toFinset_cons]
      have h1 : (insert r.start_time (rs.map (fun r => r.start_time)).toFinset) \ ex.toFinset =
          insert r.start_time ((rs.map (fun r => r.start_time)).toFinset \ ex.toFinset) :=
        Finset.insert_sdiff_of_not_mem _ (fun hc => hm (List.mem_toFinset.1 hc))
      rw [h1, card_insert_eq_card_erase, ← Finset.sdiff_insert]
      have h2 := ih (r.start_time :: ex)
      simp only [List.toFinset_cons] at h2
      simp [h2]

/-- C3: appending the same batch twice is idempotent at the store boundary.
The first call adds one row per distinct new key and reports exactly that
count; the second call adds nothing, reports every batch record as
skipped (a present key is a no-op, never an overwrite or an error), and
leaves the stored rows — hence the row count — unchanged. -/
theorem c3_append_idempotent (rows : List (List Cell)) (batch : List IPSLARecord) :
    (append_records rows batch).1 =
      ((batch.map (fun r => r.start_time)).toFinset \
        (get_existing_timestamps rows).toFinset).card ∧
    (append_records rows batch).2.2.length =
      rows.length + (append_records rows batch).1 ∧
    (append_records (append_records rows batch).2.2 batch).1 = 0 ∧
    (append_records (append_records rows batch).2.2 batch).2.1 = batch.length ∧
    (append_records (append_records rows batch).2.2 batch).2.2 =
      (append_records rows batch).2.2 := by
  have hall : ∀ r ∈ batch,
      r.start_time ∈ get_existing_timestamps (append_records rows batch).2.2 := by
    intro r hr
    rcases appendLoop_covers batch (get_existing_timestamps rows) r hr with h | h
    · simp [append_records, get_existing_timestamps, List.filterMap_append]
      left
      simpa [get_existing_timestamps] using h
    · simp [append_records, get_existing_timestamps, List.filterMap_append]
      right
      simpa [get_existing_timestamps] using h
  have hskip := appendLoop_all_skipped batch
    (get_existing_timestamps (append_records rows batch).2.2) hall
  simp only [append_records] at hskip
  refine ⟨?_, ?_, ?_, ?_, ?_⟩
  · simpa [append_records] using
      appendLoop_added_card batch (get_existing_timestamps rows)
  · simp [append_records, appendLoop_rows_length]
  · simp [append_records, hskip]
  · simp [append_records, hskip]
  · simp [append_records, hskip]

/-- Characterisation of a successful `obind`. -/
theorem obind_eq_some {α β : Type} (o : Option α) (f : α → Option β) (b : β) :
    obind o f = some b ↔ ∃ a, o = some a ∧ f a = some b := by
  cases o <;> simp [obind]

/-- `obind` over `none` short-circuits. -/
theorem obind_none {α β : Type} (f : α → Option β) : obind none f = none := rfl

/-- `obind` over `some` applies the continuation. -/
theorem obind_some {α β : Type} (a : α) (f : α → Option β) : obind (some a) f = f a := rfl

/-- A successful search comes from a successful match on some suffix. -/
theorem searchWith_some {α : Type} (m : LC → Option α) (s : LC) (x : α)
    (h : searchWith m s = some x) : ∃ t : LC, m t = some x := by
  induction s with
  | nil => exact ⟨[], h⟩
  | cons c rest ih =>
    rw [searchWith] at h
    rcases hm : m (c :: rest) with _ | y
    · simp only [hm] at h
      exact ih h
    · simp only [hm] at h
      exact ⟨c :: rest, by rw [hm, h]⟩

/-- A capture produced by a one-or-more class repetition satisfies the
class predicate throughout and is nonempty. -/
theorem takeWhile1_all (p : Char → Bool) (s t u : LC)
    (h : takeWhile1 p s = some (t, u)) : t.all p = true ∧ t ≠ [] := by
  rw [takeWhile1] at h
  split at h
  · exact absurd h (by simp)
  · rename_i hne
    rw [Option.some.injEq, Prod.mk.injEq] at h
    obtain ⟨ht, _⟩ := h
    subst ht
    refine ⟨List.all_eq_true.2 (fun c hc => List.mem_takeWhile_imp hc), ?_⟩
    simpa [List.isEmpty_iff] using hne

/-- `pyInt` on a plain digit string is the digit value, a nonnegative
integer. -/
theorem pyInt_digits_nonneg (s : LC) (n : Int)
    (hall : s.all isDigitC = true) (h : pyInt s = some n) : 0 ≤ n := by
  rw [pyInt] at h
  have hminus : s.head? ≠ some '-' := by
    cases s with
    | nil => simp
    | cons c t =>
      simp only [List.all_cons, Bool.and_eq_true] at hall
      intro hc
      rw [List.head?_cons, Option.some.injEq] at hc
      rw [hc] at hall
      exact absurd hall.1 (by decide)
  have hplus : s.head? ≠ some '+' := by
    cases s with
    | nil => simp
    | cons c t =>
      simp only [List.all_cons, Bool.and_eq_true] at hall
      intro hc
      rw [List.head?_cons, Option.some.injEq] at hc
      rw [hc] at hall
      exact absurd hall.1 (by decide)
  rw [if_neg hminus, if_neg hplus] at h
  split at h
  · rw [Option.some.injEq] at h
    rw [← h]
    exact Int.natCast_nonneg _
  · exact absurd h (by simp)

/-- `pyFloat` never produces a negative value: the class `[\d.]+` admits no
sign, so every defined value is a quotient of nonnegative numbers. -/
theorem pyFloat_nonneg (s : LC) (q : ℚ) (h : pyFloat s = some q) : 0 ≤ q := by
  rw [pyFloat] at h
  split at h
  · split at h
    · rw [Option.some.injEq] at h
      rw [← h, Rat.mkRat_eq_divInt]
      exact Rat.divInt_nonneg (by positivity) (by positivity)
    · exact absurd h (by simp)
  · split at h
    · exact absurd h (by simp)
    · split at h
      · rw [Option.some.injEq] at h
        rw [← h, Rat.mkRat_eq_divInt]
        exact Rat.divInt_nonneg (by positivity) (by positivity)
      · exact absurd h (by simp)

/-- Captures of a successful `rtt_values` match are digit strings. -/
theorem match_rtt_values_digits (s a b c d : LC)
    (h : match_rtt_values s = some (a, b, c, d)) :
    a.all isDigitC = true ∧ b.all isDigitC = true ∧
    c.all isDigitC = true ∧ d.all isDigitC = true := by
  simp only [match_rtt_values, obind_eq_some, Option.some.injEq, Prod.mk.injEq,
    Prod.exists] at h
  obtain ⟨s1, h1, n, s2, hn, s3, h3, s4, h4, a', s5, ha, s6, h6, b', s7, hb,
    s8, h8, c', s9, hc, hout⟩ := h
  obtain ⟨he1, he2, he3, he4⟩ := hout
  subst he1; subst he2; subst he3; subst he4
  exact ⟨(takeWhile1_all _ _ _ _ hn).1, (takeWhile1_all _ _ _ _ ha).1,
    (takeWhile1_all _ _ _ _ hb).1, (takeWhile1_all _ _ _ _ hc).1⟩

/-- Capture of a successful `oneway_samples` match is a digit string. -/
theorem match_oneway_samples_digits (s a : LC)
    (h : match_oneway_samples s = some a) : a.all isDigitC = true := by
  simp only [match_oneway_samples, obind_eq_some, Option.some.injEq,
    Prod.exists] at h
  obtain ⟨s1, h1, n, s2, hn, he⟩ := h
  subst he
  exact (takeWhile1_all _ _ _ _ hn).1

/-- Captures of a successful `rtt_threshold` match are digit strings. -/
theorem match_rtt_threshold_digits (s a b : LC)
    (h : match_rtt_threshold s = some (a, b)) :
    a.all isDigitC = true ∧ b.all isDigitC = true := by
  simp only [match_rtt_threshold, obind_eq_some, Option.some.injEq,
    Prod.mk.injEq, Prod.exists] at h
  obtain ⟨s1, h1, n, s2, hn, s3, h3, p, s4, hp, s5, h5, he1, he2⟩ := h
  subst he1; subst he2
  exact ⟨(takeWhile1_all _ _ _ _ hn).1, (takeWhile1_all _ _ _ _ hp).1⟩

/-- Captures of a successful `jitter_sd` match are digit strings. -/
theorem match_jitter_sd_digits (s a b c : LC)
    (h : match_jitter_sd s = some (a, b, c)) :
    a.all isDigitC = true ∧ b.all isDigitC = true ∧ c.all isDigitC = true := by
  simp only [match_jitter_sd, obind_eq_some, Option.some.injEq, Prod.mk.injEq,
    Prod.exists] at h
  obtain ⟨s1, h1, a', s2, ha, s3, h3, b', s4, hb, s5, h5, c', s6, hc, he1, he2, he3⟩ := h
  subst he1; subst he2; subst he3
  exact ⟨(takeWhile1_all _ _ _ _ ha).1, (takeWhile1_all _ _ _ _ hb).1,
    (takeWhile1_all _ _ _ _ hc).1⟩

/-- Captures of a successful `jitter_ds` match are digit strings. -/
theorem match_jitter_ds_digits (s a b c : LC)
    (h : match_jitter_ds s = some (a, b, c)) :
    a.all isDigitC = true ∧ b.all isDigitC = true ∧ c.all isDigitC = true := by
  simp only [match_jitter_ds, obind_eq_some, Option.some.injEq, Prod.mk.injEq,
    Prod.exists] at h
  obtain ⟨s1, h1, a', s2, ha, s3, h3, b', s4, hb, s5, h5, c', s6, hc, he1, he2, he3⟩ := h
  subst he1; subst he2; subst he3
  exact ⟨(takeWhile1_all _ _ _ _ ha).1, (takeWhile1_all _ _ _ _ hb).1,
    (takeWhile1_all _ _ _ _ hc).1⟩

/-- Capture of a successful `loss_sd` match is a digit string. -/
theorem match_loss_sd_digits (s a : LC)
    (h : match_loss_sd s = some a) : a.all isDigitC = true := by
  simp only [match_loss_sd, obind_eq_some, Option.some.injEq, Prod.exists] at h
  obtain ⟨s1, h1, n, s2, hn, he⟩ := h
  subst he
  exact (takeWhile1_all _ _ _ _ hn).1

/-- Capture of a successful `loss_ds` match is a digit string. -/
theorem match_loss_ds_digits (s a : LC)
    (h : match_loss_ds s = some a) : a.all isDigitC = true := by
  simp only [match_loss_ds, obind_eq_some, Option.some.injEq, Prod.exists] at h
  obtain ⟨s1, h1, n, s2, hn, he⟩ := h
  subst he
  exact (takeWhile1_all _ _ _ _ hn).1

/-- Captures of a successful `out_of_seq_tail` match are digit strings. -/
theorem match_out_of_seq_tail_digits (s a b : LC)
    (h : match_out_of_seq_tail s = some (a, b)) :
    a.all isDigitC = true ∧ b.all isDigitC = true := by
  simp only [match_out_of_seq_tail, obind_eq_some, Option.some.injEq,
    Prod.mk.injEq, Prod.exists] at h
  obtain ⟨s1, h1, a', s2, ha, s3, h3, s4, h4, b', s5, hb, he1, he2⟩ := h
  subst he1; subst he2
  exact ⟨(takeWhile1_all _ _ _ _ ha).1, (takeWhile1_all _ _ _ _ hb).1⟩

/-- Capture of a successful `late_arrival` match is a digit string. -/
theorem match_late_arrival_digits (s a : LC)
    (h : match_late_arrival s = some a) : a.all isDigitC = true := by
  simp only [match_late_arrival, obind_eq_some, Option.some.injEq, Prod.exists] at h
  obtain ⟨s1, h1, n, s2, hn, he⟩ := h
  subst he
  exact (takeWhile1_all _ _ _ _ hn).1

/-- Capture of a successful `successes` match is a digit string. -/
theorem match_successes_digits (s a : LC)
    (h : match_successes s = some a) : a.all isDigitC = true := by
  simp only [match_successes, obind_eq_some, Option.some.injEq, Prod.exists] at h
  obtain ⟨s1, h1, n, s2, hn, he⟩ := h
  subst he
  exact (takeWhile1_all _ _ _ _ hn).1

/-- Capture of a successful `failures` match is a digit string. -/
theorem match_failures_digits (s a : LC)
    (h : match_failures s = some a) : a.all isDigitC = true := by
  simp only [match_failures, obind_eq_some, Option.some.injEq, Prod.exists] at h
  obtain ⟨s1, h1, n, s2, hn, he⟩ := h
  subst he
  exact (takeWhile1_all _ _ _ _ hn).1

/-- Inversion of a successful `_parse_block`: each record field equals the
value its branch computed from the corresponding pattern search. -/
theorem parse_block_fields (b : LC) (r : IPSLARecord) (h : parse_block b = some r) :
    (∃ caps hour minute second day year,
      (blockSig b).start_time = some caps ∧
      pyInt caps.hh = some hour ∧ pyInt caps.mm = some minute ∧
      pyInt caps.ss = some second ∧ pyInt caps.day = some day ∧
      pyInt caps.year = some year ∧
      mkDatetime year (monthsGet caps.monthStr) day hour minute second =
        some r.start_time) ∧
    voiceVals (blockSig b).voice_scores =
      some (r.min_icpif, r.max_icpif, r.min_mos, r.max_mos) ∧
    intQuad (blockSig b).rtt_values =
      some (r.num_rtt, r.rtt_min_ms, r.rtt_avg_ms, r.rtt_max_ms) ∧
    intSingle (blockSig b).oneway_samples = some r.num_oneway_samples ∧
    intPair (blockSig b).rtt_threshold =
      some (r.rtt_over_threshold_count, r.rtt_over_threshold_pct) ∧
    jitterVals (blockSig b).jitter_sd =
      some (r.jitter_sd_avg_ms, r.jitter_sd_max_ms) ∧
    jitterVals (blockSig b).jitter_ds =
      some (r.jitter_ds_avg_ms, r.jitter_ds_max_ms) ∧
    intSingle (blockSig b).loss_sd = some r.loss_sd ∧
    intSingle (blockSig b).loss_ds = some r.loss_ds ∧
    intPair (blockSig b).out_of_seq_tail = some (r.out_of_seq, r.tail_drop) ∧
    intSingle (blockSig b).late_arrival = some r.packet_late_arrival ∧
    intSingle (blockSig b).successes = some r.successes ∧
    intSingle (blockSig b).failures = some r.failures := by
  rw [parse_block] at h
  simp only [parseSig, obind_eq_some, Option.some.injEq, Prod.exists] at h
  obtain ⟨caps, hcaps, hour, hhour, minute, hminute, second, hsecond, day, hday,
    year, hyear, st, hst, mici, maci, mimos, mamos, hv, nrtt, rmin, ravg, rmax,
    hq, nonew, hone, thrc, thrp, hthr, jsda, jsdm, hjsd, jdsa, jdsm, hjds, lsd,
    hlsd, lds, hlds, oos, tdrop, hoos, late, hlate, succ, hsucc, fl, hfl,
    hrec⟩ := h
  subst hrec
  exact ⟨⟨caps, hour, minute, second, day, year, hcaps, hhour, hminute, hsecond,
    hday, hyear, hst⟩, hv, hq, hone, hthr, hjsd, hjds, hlsd, hlds, hoos, hlate,
    hsucc, hfl⟩

/-- A one-integer branch yields a nonnegative value when its capture (if
any) is a digit string. -/
theorem intSingle_nonneg (o : Option LC) (n : Int)
    (hcap : ∀ t : LC, o = some t → t.all isDigitC = true)
    (h : intSingle o = some n) : 0 ≤ n := by
  cases o with
  | none => simp [intSingle] at h; omega
  | some t => exact pyInt_digits_nonneg t n (hcap t rfl) h

/-- A two-integer branch yields nonnegative values when its captures are
digit strings. -/
theorem intPair_nonneg (o : Option (LC × LC)) (x : Int × Int)
    (hcap : ∀ a b : LC, o = some (a, b) → a.all isDigitC = true ∧ b.all isDigitC = true)
    (h : intPair o = some x) : 0 ≤ x.1 ∧ 0 ≤ x.2 := by
  cases o with
  | none =>
    simp only [intPair, Option.some.injEq] at h
    rw [← h]
    exact ⟨le_refl 0, le_refl 0⟩
  | some ab =>
    obtain ⟨a, b⟩ := ab
    obtain ⟨ha, hb⟩ := hcap a b rfl
    simp only [intPair, obind_eq_some, Option.some.injEq] at h
    obtain ⟨x1, hx1, x2, hx2, he⟩ := h
    rw [← he]
    exact ⟨pyInt_digits_nonneg a x1 ha hx1, pyInt_digits_nonneg b x2 hb hx2⟩

/-- The four-integer branch yields nonnegative values when its captures are
digit strings. -/
theorem intQuad_nonneg (o : Option (LC × LC × LC × LC)) (x : Int × Int × Int × Int)
    (hcap : ∀ a b c d : LC, o = some (a, b, c, d) →
      a.all isDigitC = true ∧ b.all isDigitC = true ∧
      c.all isDigitC = true ∧ d.all isDigitC = true)
    (h : intQuad o = some x) :
    0 ≤ x.1 ∧ 0 ≤ x.2.1 ∧ 0 ≤ x.2.2.1 ∧ 0 ≤ x.2.2.2 := by
  cases o with
  | none =>
    simp only [intQuad, Option.some.injEq] at h
    rw [← h]
    refine ⟨le_refl 0, le_refl 0, le_refl 0, le_refl 0⟩
  | some abcd =>
    obtain ⟨a, b, c, d⟩ := abcd
    obtain ⟨ha, hb, hc, hd⟩ := hcap a b c d rfl
    simp only [intQuad, obind_eq_some, Option.some.injEq] at h
    obtain ⟨x1, hx1, x2, hx2, x3, hx3, x4, hx4, he⟩ := h
    rw [← he]
    exact ⟨pyInt_digits_nonneg a x1 ha hx1, pyInt_digits_nonneg b x2 hb hx2,
      pyInt_digits_nonneg c x3 hc hx3, pyInt_digits_nonneg d x4 hd hx4⟩

/-- A jitter branch yields nonnegative values when its retained captures
are digit strings. -/
theorem jitterVals_nonneg (o : Option (LC × LC × LC)) (x : Int × Int)
    (hcap : ∀ a b c : LC, o = some (a, b, c) →
      b.all isDigitC = true ∧ c.all isDigitC = true)
    (h : jitterVals o = some x) : 0 ≤ x.1 ∧ 0 ≤ x.2 := by
  cases o with
  | none =>
    simp only [jitterVals, Option.some.injEq] at h
    rw [← h]
    exact ⟨le_refl 0, le_refl 0⟩
  | some abc =>
    obtain ⟨a, b, c⟩ := abc
    obtain ⟨hb, hc⟩ := hcap a b c rfl
    simp only [jitterVals, obind_eq_some, Option.some.injEq] at h
    obtain ⟨x1, hx1, x2, hx2, he⟩ := h
    rw [← he]
    exact ⟨pyInt_digits_nonneg b x1 hb hx1, pyInt_digits_nonneg c x2 hc hx2⟩

/-- The voice-score branch yields only nonnegative values: `[\d.]+` admits
no sign. -/
theorem voiceVals_nonneg (o : Option (LC × LC × LC × LC)) (x : ℚ × ℚ × ℚ × ℚ)
    (h : voiceVals o = some x) :
    0 ≤ x.1 ∧ 0 ≤ x.2.1 ∧ 0 ≤ x.2.2.1 ∧ 0 ≤ x.2.2.2 := by
  cases o with
  | none =>
    simp only [voiceVals, Option.some.injEq] at h
    rw [← h]
    refine ⟨le_refl 0, le_refl 0, le_refl 0, le_refl 0⟩
  | some abcd =>
    obtain ⟨a, b, c, d⟩ := abcd
    simp only [voiceVals, obind_eq_some, Option.some.injEq] at h
    obtain ⟨x1, hx1, x2, hx2, x3, hx3, x4, hx4, he⟩ := h
    rw [← he]
    exact ⟨pyFloat_nonneg a x1 hx1, pyFloat_nonneg b x2 hx2,
      pyFloat_nonneg c x3 hx3, pyFloat_nonneg d x4 hx4⟩

/-- C10: every record produced by `parse_content` has all 22 non-timestamp
numeric fields nonnegative — every value pattern captures only unsigned
digit sequences (`\d+` or `[\d.]+`, no sign), and every absent group
defaults to zero, so extraction can never produce a negative count or
score. -/
theorem c10_fields_nonneg (s : LC) (r : IPSLARecord) (h : r ∈ parse_content s) :
    0 ≤ r.min_mos ∧ 0 ≤ r.max_mos ∧ 0 ≤ r.min_icpif ∧ 0 ≤ r.max_icpif ∧
    0 ≤ r.num_rtt ∧ 0 ≤ r.rtt_min_ms ∧ 0 ≤ r.rtt_avg_ms ∧ 0 ≤ r.rtt_max_ms ∧
    0 ≤ r.rtt_over_threshold_count ∧ 0 ≤ r.rtt_over_threshold_pct ∧
    0 ≤ r.num_oneway_samples ∧ 0 ≤ r.jitter_sd_avg_ms ∧ 0 ≤ r.jitter_sd_max_ms ∧
    0 ≤ r.jitter_ds_avg_ms ∧ 0 ≤ r.jitter_ds_max_ms ∧ 0 ≤ r.loss_sd ∧
    0 ≤ r.loss_ds ∧ 0 ≤ r.packet_late_arrival ∧ 0 ≤ r.out_of_seq ∧
    0 ≤ r.tail_drop ∧ 0 ≤ r.successes ∧ 0 ≤ r.failures := by
  rw [parse_content] at h
  obtain ⟨b, _, hkp⟩ := List.mem_filterMap.1 h
  rw [keepParse] at hkp
  split at hkp
  · exact absurd hkp (by simp)
  · obtain ⟨_, hv, hq, hone, hthr, hjsd, hjds, hlsd, hlds, hoos, hlate, hsucc,
      hfl⟩ := parse_block_fields b r hkp
    have nv := voiceVals_nonneg _ _ hv
    have nq := intQuad_nonneg _ _
      (fun a b' c d hsr => Exists.elim (searchWith_some _ _ _ hsr)
        (fun t ht => match_rtt_values_digits t a b' c d ht)) hq
    have none1 := intSingle_nonneg _ _
      (fun t hsr => Exists.elim (searchWith_some _ _ _ hsr)
        (fun u hu => match_oneway_samples_digits u t hu)) hone
    have nthr := intPair_nonneg _ _
      (fun a b' hsr => Exists.elim (searchWith_some _ _ _ hsr)
        (fun t ht => match_rtt_threshold_digits t a b' ht)) hthr
    have njsd := jitterVals_nonneg _ _
      (fun a b' c hsr => Exists.elim (searchWith_some _ _ _ hsr)
        (fun t ht => And.intro (match_jitter_sd_digits t a b' c ht).2.1
          (match_jitter_sd_digits t a b' c ht).2.2)) hjsd
    have njds := jitterVals_nonneg _ _
      (fun a b' c hsr => Exists.elim (searchWith_some _ _ _ hsr)
        (fun t ht => And.intro (match_jitter_ds_digits t a b' c ht).2.1
          (match_jitter_ds_digits t a b' c ht).2.2)) hjds
    have nlsd := intSingle_nonneg _ _
      (fun t hsr => Exists.elim (searchWith_some _ _ _ hsr)
        (fun u hu => match_loss_sd_digits u t hu)) hlsd
    have nlds := intSingle_nonneg _ _
      (fun t hsr => Exists.elim (searchWith_some _ _ _ hsr)
        (fun u hu => match_loss_ds_digits u t hu)) hlds
    have noos := intPair_nonneg _ _
      (fun a b' hsr => Exists.elim (searchWith_some _ _ _ hsr)
        (fun t ht => match_out_of_seq_tail_digits t a b' ht)) hoos
    have nlate := intSingle_nonneg _ _
      (fun t hsr => Exists.elim (searchWith_some _ _ _ hsr)
        (fun u hu => match_late_arrival_digits u t hu)) hlate
    have nsucc := intSingle_nonneg _ _
      (fun t hsr => Exists.elim (searchWith_some _ _ _ hsr)
        (fun u hu => match_successes_digits u t hu)) hsucc
    have nfl := intSingle_nonneg _ _
      (fun t hsr => Exists.elim (searchWith_some _ _ _ hsr)
        (fun u hu => match_failures_digits u t hu)) hfl
    exact ⟨nv.2.2.1, nv.2.2.2, nv.1, nv.2.1, nq.1, nq.2.1, nq.2.2.1, nq.2.2.2,
      nthr.1, nthr.2, none1, njsd.1, njsd.2, njds.1, njds.2, nlsd, nlds,
      nlate, noos.1, noos.2, nsucc, nfl⟩

/-- Witness for C10: the nonnegativity bundle instantiated at the concrete
scenario block of C1. -/
theorem c10_fields_nonneg_witness :
    0 ≤ c1Record.min_mos ∧ 0 ≤ c1Record.max_mos ∧ 0 ≤ c1Record.min_icpif ∧
    0 ≤ c1Record.max_icpif ∧ 0 ≤ c1Record.num_rtt ∧ 0 ≤ c1Record.rtt_min_ms ∧
    0 ≤ c1Record.rtt_avg_ms ∧ 0 ≤ c1Record.rtt_max_ms ∧
    0 ≤ c1Record.rtt_over_threshold_count ∧ 0 ≤ c1Record.rtt_over_threshold_pct ∧
    0 ≤ c1Record.num_oneway_samples ∧ 0 ≤ c1Record.jitter_sd_avg_ms ∧
    0 ≤ c1Record.jitter_sd_max_ms ∧ 0 ≤ c1Record.jitter_ds_avg_ms ∧
    0 ≤ c1Record.jitter_ds_max_ms ∧ 0 ≤ c1Record.loss_sd ∧ 0 ≤ c1Record.loss_ds ∧
    0 ≤ c1Record.packet_late_arrival ∧ 0 ≤ c1Record.out_of_seq ∧
    0 ≤ c1Record.tail_drop ∧ 0 ≤ c1Record.successes ∧ 0 ≤ c1Record.failures :=
  c10_fields_nonneg c1Content c1Record (by decide)

/-- C9: a block whose timestamp line matches but whose month token is not
one of the twelve abbreviations in `MONTHS` is not rejected for that
reason — `MONTHS.get(month_str, 1)` silently falls back to `1`, so any
record the block yields carries January as its month. -/
theorem c9_unknown_month_january (b : LC) (caps : TsCaps) (r : IPSLARecord)
    (hts : (blockSig b).start_time = some caps)
    (hlk : List.lookup caps.monthStr MONTHS = none)
    (h : parse_block b = some r) :
    monthsGet caps.monthStr = 1 ∧ r.start_time.month = 1 := by
  have hm : monthsGet caps.monthStr = 1 := by rw [monthsGet, hlk]
  refine ⟨hm, ?_⟩
  obtain ⟨⟨caps', hour, minute, second, day, year, hcaps', _, _, _, _, _, hst⟩,
    _⟩ := parse_block_fields b r h
  rw [hts, Option.some.injEq] at hcaps'
  subst hcaps'
  rw [hm, mkDatetime] at hst
  split at hst
  · rw [Option.some.injEq] at hst
    rw [← hst]
  · exact absurd hst (by simp)

/-- The C9 witness block: month token `Foo`, absent from the table. -/
def c9Block : LC :=
  ("Start Time Index: 09:28:16 EST Wed Foo 28 2026\nNumber of successes: 60\n").data

/-- The captures of the C9 witness block's timestamp line. -/
def c9Caps : TsCaps :=
  ⟨"09".data, "28".data, "16".data, "Wed".data, "Foo".data, "28".data, "2026".data⟩

/-- The record extracted from the C9 witness block: January 28. -/
def c9Rec : IPSLARecord :=
  { start_time := ⟨2026, 1, 28, 9, 28, 16⟩,
    min_mos := 0, max_mos := 0, min_icpif := 0, max_icpif := 0,
    num_rtt := 0, rtt_min_ms := 0, rtt_avg_ms := 0, rtt_max_ms := 0,
    rtt_over_threshold_count := 0, rtt_over_threshold_pct := 0,
    num_oneway_samples := 0, jitter_sd_avg_ms := 0, jitter_sd_max_ms := 0,
    jitter_ds_avg_ms := 0, jitter_ds_max_ms := 0, loss_sd := 0, loss_ds := 0,
    packet_late_arrival := 0, out_of_seq := 0, tail_drop := 0,
    successes := 60, failures := 0 }

/-- Witness for C9: the `Foo`-month block is parsed (not rejected) and its
record's month is January. -/
theorem c9_unknown_month_january_witness :
    parse_block c9Block = some c9Rec ∧ c9Rec.start_time.month = 1 :=
  ⟨by decide,
   (c9_unknown_month_january c9Block c9Caps c9Rec (by decide) (by decide)
     (by decide)).2⟩


/-- `_parse_block`'s combination step never reads the weekday capture: two
search tuples that agree except for the weekday capture (the timezone word
is not captured at all) produce identical results. -/
theorem parseSig_ignores_dayName (s s' : BlockSig) (caps : TsCaps) (dn' : LC)
    (hts : s.start_time = some caps)
    (hts' : s'.start_time = some { caps with dayName := dn' })
    (hrest : { s with start_time := none } = { s' with start_time := none }) :
    parseSig s = parseSig s' := by
  obtain ⟨ts1, v1, q1, o1, th1, jsd1, jds1, ls1, ld1, ot1, la1, su1, fa1⟩ := s
  obtain ⟨ts2, v2, q2, o2, th2, jsd2, jds2, ls2, ld2, ot2, la2, su2, fa2⟩ := s'
  simp only at hts hts' hrest
  injection hrest with e1 e2 e3 e4 e5 e6 e7 e8 e9 e10 e11 e12 e13
  subst e2; subst e3; subst e4; subst e5; subst e6; subst e7; subst e8
  subst e9; subst e10; subst e11; subst e12; subst e13
  obtain ⟨hh, mm, ss, dayName, monthStr, day, year⟩ := caps
  simp only [parseSig, hts, hts', obind_some]

/-- C8: the weekday name and the timezone abbreviation of the timestamp
line play no role in the constructed record.  For blocks whose timestamp
captures agree except for the weekday token (the timezone word is not even
captured) and whose other twelve searches agree, `_parse_block` returns
identical results — in particular records with equal `start_time` — and no
consistency check of weekday or timezone against the computed date exists. -/
theorem c8_weekday_tz_ignored (b b' : LC) (caps : TsCaps) (dn' : LC)
    (hts : (blockSig b).start_time = some caps)
    (hts' : (blockSig b').start_time = some { caps with dayName := dn' })
    (hrest : { blockSig b with start_time := none } =
      { blockSig b' with start_time := none }) :
    parse_block b = parse_block b' ∧
    (∀ r r' : IPSLARecord, parse_block b = some r → parse_block b' = some r' →
      r.start_time = r'.start_time) := by
  have hmain : parse_block b = parse_block b' :=
    parseSig_ignores_dayName (blockSig b) (blockSig b') caps dn' hts hts' hrest
  refine ⟨hmain, fun r r' hr hr' => ?_⟩
  rw [hmain, hr'] at hr
  injection hr with he
  rw [he]

/-- The C8 witness block, eastern-time variant. -/
def c8BlockA : LC :=
  ("Start Time Index: 09:28:16 EST Wed Jan 28 2026\nNumber Of RTT: 10 RTT Min/Avg/Max: 1/2/3\n").data

/-- The C8 witness block: identical except timezone `PDT` and weekday
`Fri`. -/
def c8BlockB : LC :=
  ("Start Time Index: 09:28:16 PDT Fri Jan 28 2026\nNumber Of RTT: 10 RTT Min/Avg/Max: 1/2/3\n").data

/-- The timestamp captures of the first C8 witness block. -/
def c8Caps : TsCaps :=
  ⟨"09".data, "28".data, "16".data, "Wed".data, "Jan".data, "28".data, "2026".data⟩

/-- Witness for C8: the two variants parse to the very same record, with
the same timestamp. -/
theorem c8_weekday_tz_ignored_witness :
    parse_block c8BlockA = parse_block c8BlockB ∧
    (parse_block c8BlockA).map (fun r => r.start_time) =
      some ⟨2026, 1, 28, 9, 28, 16⟩ :=
  ⟨(c8_weekday_tz_ignored c8BlockA c8BlockB c8Caps ("Fri".data) (by decide)
      (by decide) (by decide)).1,
   by decide⟩

/-- The twelve optional field groups of `_parse_block` (every group except
the mandatory timestamp), named after the keys of `IPSLAParser.PATTERNS`. -/
inductive FieldGroup where
  | voice_scores
  | rtt_values
  | oneway_samples
  | rtt_threshold
  | jitter_sd
  | jitter_ds
  | loss_sd
  | loss_ds
  | out_of_seq_tail
  | late_arrival
  | successes
  | failures
deriving DecidableEq

/-- Remove one optional group's search result from a block signature:
the signature of a block in which that group's pattern is absent but
everything else matches identically. -/
def eraseGroup : FieldGroup → BlockSig → BlockSig
  | FieldGroup.voice_scores, s => { s with voice_scores := none }
  | FieldGroup.rtt_values, s => { s with rtt_values := none }
  | FieldGroup.oneway_samples, s => { s with oneway_samples := none }
  | FieldGroup.rtt_threshold, s => { s with rtt_threshold := none }
  | FieldGroup.jitter_sd, s => { s with jitter_sd := none }
  | FieldGroup.jitter_ds, s => { s with jitter_ds := none }
  | FieldGroup.loss_sd, s => { s with loss_sd := none }
  | FieldGroup.loss_ds, s => { s with loss_ds := none }
  | FieldGroup.out_of_seq_tail, s => { s with out_of_seq_tail := none }
  | FieldGroup.late_arrival, s => { s with late_arrival := none }
  | FieldGroup.successes, s => { s with successes := none }
  | FieldGroup.failures, s => { s with failures := none }

/-- Zero out exactly the record fields fed by one optional group
(`0.0` for the four decimal voice-score fields, `0` for integer fields),
leaving every other field untouched. -/
def setGroupZero : FieldGroup → IPSLARecord → IPSLARecord
  | FieldGroup.voice_scores, r =>
    { r with min_mos := 0, max_mos := 0, min_icpif := 0, max_icpif := 0 }
  | FieldGroup.rtt_values, r =>
    { r with num_rtt := 0, rtt_min_ms := 0, rtt_avg_ms := 0, rtt_max_ms := 0 }
  | FieldGroup.oneway_samples, r => { r with num_oneway_samples := 0 }
  | FieldGroup.rtt_threshold, r =>
    { r with rtt_over_threshold_count := 0, rtt_over_threshold_pct := 0 }
  | FieldGroup.jitter_sd, r => { r with jitter_sd_avg_ms := 0, jitter_sd_max_ms := 0 }
  | FieldGroup.jitter_ds, r => { r with jitter_ds_avg_ms := 0, jitter_ds_max_ms := 0 }
  | FieldGroup.loss_sd, r => { r with loss_sd := 0 }
  | FieldGroup.loss_ds, r => { r with loss_ds := 0 }
  | FieldGroup.out_of_seq_tail, r => { r with out_of_seq := 0, tail_drop := 0 }
  | FieldGroup.late_arrival, r => { r with packet_late_arrival := 0 }
  | FieldGroup.successes, r => { r with successes := 0 }
  | FieldGroup.failures, r => { r with failures := 0 }

/-- The voice branch with no match defaults all four scores. -/
theorem voiceVals_none : voiceVals none = some (0, 0, 0, 0) := rfl

/-- The four-integer branch with no match defaults to zeros. -/
theorem intQuad_none : intQuad none = some (0, 0, 0, 0) := rfl

/-- The two-integer branch with no match defaults to zeros. -/
theorem intPair_none : intPair none = some (0, 0) := rfl

/-- The one-integer branch with no match defaults to zero. -/
theorem intSingle_none : intSingle none = some 0 := rfl

/-- The jitter branch with no match defaults to zeros. -/
theorem jitterVals_none : jitterVals none = some (0, 0) := rfl

/-- Removing one optional group's match from a successful signature still
succeeds, zeroing exactly that group's fields and leaving the rest of the
record unchanged. -/
theorem parseSig_erase (g : FieldGroup) (s : BlockSig) (r : IPSLARecord)
    (h : parseSig s = some r) :
    parseSig (eraseGroup g s) = some (setGroupZero g r) := by
  obtain ⟨ts1, v1, q1, o1, th1, jsd1, jds1, ls1, ld1, ot1, la1, su1, fa1⟩ := s
  simp only [parseSig, obind_eq_some, Option.some.injEq, Prod.exists] at h
  obtain ⟨caps, hcaps, hour, hhour, minute, hminute, second, hsecond, day, hday,
    year, hyear, st, hst, mici, maci, mimos, mamos, hv, nrtt, rmin, ravg, rmax,
    hq, nonew, hone, thrc, thrp, hthr, jsda, jsdm, hjsd, jdsa, jdsm, hjds, lsd,
    hlsd, lds, hlds, oos, tdrop, hoos, late, hlate, succ, hsucc, fl, hfl,
    hrec⟩ := h
  subst hrec
  cases g <;>
    simp [parseSig, eraseGroup, setGroupZero, obind_some, hcaps, hhour, hminute,
      hsecond, hday, hyear, hst, hv, hq, hone, hthr, hjsd, hjds, hlsd, hlds,
      hoos, hlate, hsucc, hfl, voiceVals_none, intQuad_none, intPair_none,
      intSingle_none, jitterVals_none]

/-- C2: for a parsed block, if one optional field group's pattern were
absent (same block, that one search returning nothing, all other searches
unchanged), parsing still succeeds — absence is never a drop or an error —
and yields the same record with exactly that group's fields zeroed
(`0` for integers, `0.0` for the decimal voice scores); in particular, a
block whose group is already absent carries zeros in that group's fields. -/
theorem c2_absent_group_defaults_zero (g : FieldGroup) (b b' : LC) (r : IPSLARecord)
    (hsig : blockSig b' = eraseGroup g (blockSig b))
    (h : parse_block b = some r) :
    parse_block b' = some (setGroupZero g r) ∧
    (blockSig b' = blockSig b → r = setGroupZero g r) := by
  have h1 : parse_block b' = some (setGroupZero g r) := by
    rw [parse_block, hsig]
    exact parseSig_erase g (blockSig b) r h
  refine ⟨h1, fun he => ?_⟩
  rw [parse_block, he] at h1
  rw [parse_block] at h
  rw [h] at h1
  injection h1

/-- The C2 witness block: the C1 scenario block with its voice-score line
removed (all other searches unchanged). -/
def c2NoVoice : LC :=
  ("Start Time Index: 09:28:16 EST Wed Jan 28 2026\nNumber Of RTT: 59109 RTT Min/Avg/Max: 8/120/2332\n").data

/-- Witness for C2 at the voice-score group: dropping the voice line keeps
the block parseable, zeroes the four voice fields and leaves the RTT group
untouched. -/
theorem c2_absent_group_defaults_zero_witness :
    parse_block c2NoVoice = some (setGroupZero FieldGroup.voice_scores c1Record) ∧
    (setGroupZero FieldGroup.voice_scores c1Record).min_mos = 0 ∧
    (setGroupZero FieldGroup.voice_scores c1Record).max_icpif = 0 ∧
    (setGroupZero FieldGroup.voice_scores c1Record).num_rtt = 59109 ∧
    (setGroupZero FieldGroup.voice_scores c1Record).rtt_max_ms = 2332 :=
  ⟨(c2_absent_group_defaults_zero FieldGroup.voice_scores c1Content c2NoVoice
      c1Record (by decide) (by decide)).1,
   by decide, by decide, by decide, by decide⟩
